import Mathlib

/-!
Verification of the Relinq forecasting-service decision pipeline.

Shallow embedding of the Python sources in `forecasting-service/`:
  * `services/forecast_processor.py`  — ensemble selection, lead-time and
    reorder arithmetic (`ForecastProcessor`);
  * `services/data_validator.py`      — series validation, quality score,
    outlier assessment, anomaly detection (`DataValidator`);
  * `services/monitoring.py`          — rolling metrics ledger
    (`PerformanceMonitor`);
  * `models/forecasting_models.py`    — `ForecastResult` and the ARIMA
    forecaster's fallback structure.

Machine floats are modelled as exact rationals (`ℚ`); Python `int(x)`
(truncation toward zero) is `pyInt`.  Comparisons the code performs on
floats are modelled as exact comparisons on `ℚ`; every concrete input used
in a theorem below is chosen far from any floating-point decision boundary,
so the rational model and the running code agree on it.
-/

namespace Relinq

/-- Python `int(x)` applied to a float: truncation toward zero. -/
def pyInt (q : ℚ) : ℤ := if 0 ≤ q then q.floor else q.ceil

theorem pyInt_eq_floor (q : ℚ) (h : 0 ≤ q) : pyInt q = ⌊q⌋ := by
  simp [pyInt, h, Rat.floor_def']
  exact (@Rat.floor_def q).symm

theorem pyInt_nonneg (q : ℚ) (h : 0 ≤ q) : 0 ≤ pyInt q := by
  rw [pyInt_eq_floor q h]
  exact Int.floor_nonneg.mpr h

/-- Arithmetic mean of a list of rationals (`np.mean`); Lean's `0`-valued
division gives `0` on `[]`, a case the theorems below exclude because
`np.mean([])` is `nan` in the running code. -/
def meanQ (l : List ℚ) : ℚ := l.sum / (l.length : ℚ)

/-! ## `models/forecasting_models.py` — `ForecastResult`

The constructor's keyword defaults (lines 37–49) become Lean field
defaults.  The opaque metadata dictionaries `model_params` /
`residual_diagnostics` are never read by any code modelled here and are
not carried. -/

structure ForecastResult where
  predictions : List ℚ
  confidence_intervals : Option (List (ℚ × ℚ)) := none
  model_name : String := ""
  trend : String := "stable"
  seasonality_detected : Bool := false
  confidence_score : ℚ := 0
  data_quality_score : ℚ := 0
  deriving Repr, DecidableEq

/-! ## `models/api_models.py` — `ItemForecast` -/

structure ItemForecast where
  sku : String
  current_stock : ℤ
  forecast_7_day : ℤ
  recommended_order : ℤ
  confidence_score : ℚ
  trend : String
  seasonality_detected : Bool
  lead_time_factored : ℤ
  model_used : String
  data_quality_score : ℚ
  deriving Repr, DecidableEq

/-! ## `services/forecast_processor.py` — `ForecastProcessor` -/

namespace ForecastProcessor

/-- `ForecastProcessor._select_best_forecast` (lines 87–125).
`arima_result` is candidate A, `prophet_result` is candidate B.
The float literal `1.1` is modelled as the exact ratio `11/10`. -/
def select_best_forecast (arima_result prophet_result : ForecastResult) :
    ForecastResult :=
  if arima_result.confidence_score = 0 then prophet_result
  else if prophet_result.confidence_score = 0 then arima_result
  else if prophet_result.confidence_score >
        arima_result.confidence_score * (11/10) ∧
      prophet_result.seasonality_detected then prophet_result
  else if arima_result.confidence_score >
      prophet_result.confidence_score * (11/10) then arima_result
  else
    { predictions :=
        List.zipWith (fun x y => (x + y) / 2)
          arima_result.predictions prophet_result.predictions
      model_name := "Ensemble-ARIMA-Prophet"
      trend :=
        if prophet_result.confidence_score ≥ arima_result.confidence_score
        then prophet_result.trend else arima_result.trend
      seasonality_detected :=
        if prophet_result.confidence_score ≥ arima_result.confidence_score
        then prophet_result.seasonality_detected
        else arima_result.seasonality_detected
      confidence_score :=
        (arima_result.confidence_score + prophet_result.confidence_score) / 2 }

/-- `ForecastProcessor._calculate_lead_time_demand` (lines 127–141). -/
def calculate_lead_time_demand (predictions : List ℚ)
    (lead_time_days forecast_days : ℤ) : ℤ :=
  if lead_time_days ≤ 0 then 0
  else if lead_time_days > forecast_days then
    pyInt (meanQ predictions * (lead_time_days : ℚ))
  else pyInt ((predictions.take lead_time_days.toNat).sum)

/-- `ForecastProcessor._calculate_reorder_quantity` (lines 143–167).
Float literals `0.2` and `0.1` are the exact ratios `2/10` and `1/10`. -/
def calculate_reorder_quantity
    (current_stock forecast_demand lead_time_demand : ℤ) : ℤ :=
  let safety_stock := pyInt ((forecast_demand : ℚ) * (2/10))
  let total_demand := forecast_demand + lead_time_demand + safety_stock
  if current_stock ≥ total_demand then 0
  else max (total_demand - current_stock)
    (max 1 (pyInt ((forecast_demand : ℚ) * (1/10))))

/-- Reorder quantity exactly as the specification words it, with `round`
(nearest integer) in the safety-stock and minimum-order terms; to be
compared against `calculate_reorder_quantity`, which truncates. -/
def reorder_quantity_spec_round
    (current_stock forecast_demand lead_time_demand : ℤ) : ℤ :=
  let safety_stock := round ((forecast_demand : ℚ) * (2/10))
  let total_demand := forecast_demand + lead_time_demand + safety_stock
  if current_stock ≥ total_demand then 0
  else max (total_demand - current_stock)
    (max 1 (round ((forecast_demand : ℚ) * (1/10))))

/-- `ForecastProcessor.generate_forecast` (lines 26–78), success path.
The two externally produced `ForecastResult`s are parameters (the real
calls into the ARIMA/Prophet fitters are outside this core).  The Python
expression `best_result.data_quality_score or 0.8` falls back to the float
literal `0.8` exactly when the field is falsy, i.e. `0.0`. -/
def generate_forecast (arima_result prophet_result : ForecastResult)
    (sku : String) (current_stock : ℤ)
    (lead_time_days forecast_days : ℤ) : ItemForecast :=
  let best := select_best_forecast arima_result prophet_result
  let total_forecast := pyInt best.predictions.sum
  let lead_time_demand :=
    calculate_lead_time_demand best.predictions lead_time_days forecast_days
  let recommended_order :=
    calculate_reorder_quantity current_stock total_forecast lead_time_demand
  { sku := sku
    current_stock := current_stock
    forecast_7_day := total_forecast
    recommended_order := recommended_order
    confidence_score := best.confidence_score
    trend := best.trend
    seasonality_detected := best.seasonality_detected
    lead_time_factored := lead_time_days
    model_used := best.model_name
    data_quality_score :=
      if best.data_quality_score = 0 then 8/10 else best.data_quality_score }

end ForecastProcessor

/-! ## `models/forecasting_models.py` — `ARIMAForecaster` -/

namespace ForecastingModels

/-- `df.set_index('date')['quantity'].asfreq('D', fill_value=0)`
(forecasting_models.py line 76): reindex the (date, quantity) rows onto
every day between the minimum and maximum date, missing days filled
with 0.  Dates are day numbers (`ℤ`). -/
def dailyReindex (rows : List (ℤ × ℚ)) : List ℚ :=
  match rows with
  | [] => []
  | r :: rs =>
    let ds := (r :: rs).map Prod.fst
    let lo := ds.foldl min r.1
    let hi := ds.foldl max r.1
    (List.range (hi - lo + 1).toNat).map fun i =>
      ((((r :: rs).find? (fun p => p.1 = lo + i)).map Prod.snd).getD 0)

/-- `ARIMAForecaster._fit_simple_arima` (lines 307–311).  The function
body in the source is only a docstring — its intended implementation
sits as unreachable statements after `return 0.5` inside the first
`ProphetForecaster._calculate_prophet_confidence` (lines 556–574) — so
the Python function returns `None`. -/
def fit_simple_arima (_ts : List ℚ) (_forecast_days : ℕ) :
    Option ForecastResult :=
  none

/-- `ARIMAForecaster._fallback_forecast` (lines 405–416): moving-average
fallback used when the try-block of `fit_and_forecast` raises.  Note its
`confidence_score` is the float `0.3`, not `0`. -/
def fallback_forecast (df : List (ℤ × ℚ)) (forecast_days : ℕ) :
    ForecastResult :=
  let qty := df.map Prod.snd
  let recent_avg :=
    if 7 ≤ df.length then meanQ (qty.drop (qty.length - 7)) else meanQ qty
  { predictions := List.replicate forecast_days (max 0 recent_avg)
    model_name := "Moving-Average-Fallback"
    trend := "stable"
    seasonality_detected := false
    confidence_score := 3/10 }

/-- Outcome of `_fit_statsmodels_arima`'s internal try-block: either the
external statistical fit produced a result, or it raised (in which case
lines 172–174 fall back to `_fit_simple_arima`). -/
inductive AdvancedArimaOutcome where
  | ok (r : ForecastResult)
  | raised
  deriving Repr, DecidableEq

/-- `ARIMAForecaster.fit_and_forecast` (lines 63–85).
`statsmodels_available` is the import-time `STATSMODELS_AVAILABLE` flag,
`prep_raises` is whether the series preparation on line 76 raises (then
the outer `except` returns `_fallback_forecast`), and `advanced` is the
outcome of the external statsmodels fit.  The Python return type is
`ForecastResult`, but the `_fit_simple_arima` paths return `None`, hence
the `Option`. -/
def fit_and_forecast (statsmodels_available : Bool) (prep_raises : Bool)
    (advanced : AdvancedArimaOutcome) (df : List (ℤ × ℚ))
    (forecast_days : ℕ) : Option ForecastResult :=
  if prep_raises then some (fallback_forecast df forecast_days)
  else
    let ts := dailyReindex df
    if statsmodels_available ∧ 10 ≤ ts.length then
      match advanced with
      | .ok r => some r
      | .raised => fit_simple_arima ts forecast_days
    else fit_simple_arima ts forecast_days

end ForecastingModels

/-! ## `services/data_validator.py` — `DataValidator` -/

namespace DataValidator

/-- Population variance (square of `np.std`, ddof = 0). -/
def popVar (l : List ℚ) : ℚ :=
  (l.map (fun x => (x - meanQ l) ^ 2)).sum / (l.length : ℚ)

/-- Sample variance (square of pandas `.std()`, ddof = 1).  For a
one-element list pandas yields `NaN`; here the `0`-valued division gives
`0`, and every use below compares the result against a positive bound,
where `NaN` and `0` behave alike (both fail `> c` for `c ≥ 0`). -/
def sampleVar (l : List ℚ) : ℚ :=
  (l.map (fun x => (x - meanQ l) ^ 2)).sum / ((l.length : ℚ) - 1)

/-- Insert into a sorted list (ascending). -/
def insertSorted (x : ℚ) : List ℚ → List ℚ
  | [] => [x]
  | y :: ys => if x ≤ y then x :: y :: ys else y :: insertSorted x ys

/-- Ascending sort (`np.sort`). -/
def sortQ (l : List ℚ) : List ℚ := l.foldr insertSorted []

/-- `np.percentile(l, p)` with the default linear interpolation:
position `h = (n−1)·p/100`, value `s[⌊h⌋] + frac·(s[⌊h⌋+1] − s[⌊h⌋])`. -/
def percentile (l : List ℚ) (p : ℕ) : ℚ :=
  let s := sortQ l
  let pos := (s.length - 1) * p
  let k := pos / 100
  let fr : ℚ := ((pos % 100 : ℕ) : ℚ) / 100
  s.getD k 0 + fr * (s.getD (k + 1) (s.getD k 0) - s.getD k 0)

/-- `np.median`: middle element, or mean of the two middle elements. -/
def medianQ (l : List ℚ) : ℚ :=
  let s := sortQ l
  let n := s.length
  if n % 2 = 1 then s.getD (n / 2) 0
  else (s.getD (n / 2 - 1) 0 + s.getD (n / 2) 0) / 2

/-- IQR-rule outlier fraction (data_validator.py lines 215–222):
fraction of points outside `[Q1 − 1.5·IQR, Q3 + 1.5·IQR]`. -/
def iqr_outlier_ratio (q : List ℚ) : ℚ :=
  let q1 := percentile q 25
  let q3 := percentile q 75
  let iqr := q3 - q1
  let lb := q1 - 3/2 * iqr
  let ub := q3 + 3/2 * iqr
  ((q.filter (fun x => decide (x < lb) || decide (ub < x))).length : ℚ) /
    (q.length : ℚ)

/-- z-score outlier fraction (lines 224–227): fraction of points with
`|x − mean|/popStd > 3`, decided exactly by squaring; `stats.zscore` of a
constant list is `NaN` everywhere and flags nothing. -/
def zscore_outlier_ratio (q : List ℚ) : ℚ :=
  let m := meanQ q
  let v := popVar q
  if v = 0 then 0
  else ((q.filter (fun x => decide (9 * v < (x - m) ^ 2))).length : ℚ) /
    (q.length : ℚ)

/-- Modified z-score outlier fraction via MAD (lines 229–234): fraction
of points with `|0.6745·(x − median)/MAD| > 3.5`, zero when `MAD = 0`. -/
def modified_z_outlier_ratio (q : List ℚ) : ℚ :=
  let med := medianQ q
  let mad := medianQ (q.map (fun x => |x - med|))
  if 0 < mad then
    ((q.filter
        (fun x => decide (7/2 < 6745/10000 * |x - med| / mad))).length : ℚ) /
      (q.length : ℚ)
  else 0

/-- `DataValidator._assess_outlier_impact` (lines 207–242): the average
of the IQR, z-score and modified-z-score outlier fractions, scaled ×2 and
capped at 1.  This — not the DBSCAN labeling — is the quantity the
quality score's outlier penalty uses. -/
def assess_outlier_impact (q : List ℚ) : ℚ :=
  if q.length < 4 then 0
  else
    let combined := (iqr_outlier_ratio q + zscore_outlier_ratio q +
      modified_z_outlier_ratio q) / 3
    min 1 (combined * 2)

/-- DBSCAN noise fraction as used by `_has_significant_outliers`
(lines 270–287): points standardized by `StandardScaler`
(`z = (x − mean)/popStd`; a zero scale is replaced by 1, making all
equal points coincide), `eps = 0.5`, `min_samples = 3`.  A point is a
core point when at least 3 points (itself included) lie within `eps`; a
point is noise when it is neither core nor within `eps` of a core point.
The `eps` comparison `|zᵢ − zⱼ| ≤ 0.5` is decided exactly by squaring:
`4·(xᵢ − xⱼ)² ≤ popVar`. -/
def dbscan_noise_count (q : List ℚ) : ℕ :=
  let v := popVar q
  let nb : ℚ → ℚ → Bool := fun x y =>
    if v = 0 then true else decide (4 * (x - y) ^ 2 ≤ v)
  let core : ℚ → Bool := fun x => 3 ≤ (q.filter (fun y => nb x y)).length
  (q.filter (fun x => !(core x) &&
    q.all (fun y => !(core y && nb x y)))).length

/-- `DataValidator._has_significant_outliers` (lines 244–295): true when
any of the IQR count, the z-score count or the DBSCAN noise count
(computed only for ≥ 10 points) exceeds 10% of the points. -/
def has_significant_outliers (q : List ℚ) : Bool :=
  if q.length < 4 then false
  else
    let n : ℚ := (q.length : ℚ)
    let iqrCount : ℚ := iqr_outlier_ratio q * n
    let zCount : ℚ := zscore_outlier_ratio q * n
    let dbCount : ℚ :=
      if 10 ≤ q.length then (dbscan_noise_count q : ℚ) else 0
    decide (n / 10 < iqrCount) || decide (n / 10 < zCount) ||
      decide (n / 10 < dbCount)

/-- The outlier-penalty base exactly as claim C6 words it: the three
§4.1.3 methods are (a) IQR, (b) z-score and (c) the DBSCAN noise
labeling (contributing 0 below 10 points); averaged, scaled ×2, capped
at 1.  To be compared against `assess_outlier_impact`, whose third
method is the modified z-score, not the density labeling. -/
def outlier_impact_claim (q : List ℚ) : ℚ :=
  let dbRatio : ℚ :=
    if 10 ≤ q.length then (dbscan_noise_count q : ℚ) / (q.length : ℚ)
    else 0
  let combined :=
    (iqr_outlier_ratio q + zscore_outlier_ratio q + dbRatio) / 3
  min 1 (combined * 2)

/-- Spike test of `detect_data_anomalies` (lines 313–324) at index `i`:
the trailing 7-sample rolling window *including the current point*
(pandas `rolling(window=7, min_periods=3)`), sample standard deviation;
flagged when `std > 0` and `value > mean + 3·std`, decided exactly by
squaring. -/
def is_sudden_spike (q : List ℚ) (i : ℕ) : Bool :=
  if i < 2 then false
  else
    let w := (q.take (i + 1)).drop (i + 1 - 7)
    let m := meanQ w
    let sv := sampleVar w
    decide (0 < sv) && decide (m < q.getD i 0) &&
      decide (9 * sv < (q.getD i 0 - m) ^ 2)

/-- Indices reported in `anomalies['sudden_spikes']` (lines 313–324). -/
def sudden_spikes (q : List ℚ) : List ℕ :=
  (List.range q.length).filter (is_sudden_spike q)

/-- `DataValidator._analyze_trend_consistency` (lines 166–184): 3-point
moving average, fraction of sign changes in its first difference. -/
def analyze_trend_consistency (q : List ℚ) : ℚ :=
  if q.length < 7 then 0
  else
    let ma3 := (List.range (q.length - 2)).map
      (fun k => (q.getD k 0 + q.getD (k + 1) 0 + q.getD (k + 2) 0) / 3)
    let d := (List.range (ma3.length - 1)).map
      (fun k => ma3.getD (k + 1) 0 - ma3.getD k 0)
    let s := d.map (fun x => if 0 < x then (1 : ℤ) else if x < 0 then -1 else 0)
    let ch := (List.range (s.length - 1)).map
      (fun k => s.getD (k + 1) 0 - s.getD k 0)
    if ch.length = 0 then 0
    else 1 - ((ch.filter (fun x => decide (x ≠ 0))).length : ℚ) /
      (ch.length : ℚ)

/-- `DataValidator._analyze_seasonality_strength` (lines 186–205).  The
lag-7 autocorrelation is pandas' Pearson coefficient, an irrational real
in general; its value (or `none` for `NaN`, e.g. on a constant series)
is a parameter of the embedding.  Below 14 points the bonus is 0. -/
def analyze_seasonality_strength (n : ℕ) (autocorr7 : Option ℚ) : ℚ :=
  if 14 ≤ n then
    match autocorr7 with
    | some a => |a|
    | none => 0
  else 0

/-- `DataValidator._calculate_data_quality_score` (lines 105–164) on the
date-sorted series: start from 1.0, apply the additive adjustments, then
clamp to [0,1].  Returns the score together with the warnings the
function appends.  `dates` are sorted day numbers aligned with `q`;
`days_since_last` is `(datetime.now() − max(date)).days`. -/
def calculate_data_quality_score (dates : List ℤ) (q : List ℚ)
    (autocorr7 : Option ℚ) (days_since_last : ℤ) : ℚ × List String :=
  let gaps := (List.range (dates.length - 1)).map
    (fun k => ((dates.getD (k + 1) 0 - dates.getD k 0 : ℤ) : ℚ))
  let avg_gap := meanQ gaps
  let s0 : ℚ := 1
  let w0 : List String := []
  let s1 := if 2 < avg_gap then s0 - 15/100 else s0
  let w1 := if 2 < avg_gap then
    w0 ++ ["Irregular data frequency detected. Daily data recommended for best accuracy."]
    else w0
  let s2 := if 9 < sampleVar gaps then s1 - 1/10 else s1
  let w2 := if 9 < sampleVar gaps then
    w1 ++ ["Inconsistent data collection intervals detected."] else w1
  let m := meanQ q
  let v := popVar q
  let s3 := if 0 < m ∧ 4 * m ^ 2 < v then s2 - 15/100
    else if 0 < m ∧ m ^ 2 < v then s2 - 5/100 else s2
  let w3 := if 0 < m ∧ 4 * m ^ 2 < v then
    w2 ++ ["High sales variability detected. Forecast confidence may be lower."]
    else w2
  let zr := ((q.filter (fun x => decide (x = 0))).length : ℚ) /
    (q.length : ℚ)
  let s4 := if 1/2 < zr then s3 - 25/100
    else if 3/10 < zr then s3 - 15/100 else s3
  let w4 := if 1/2 < zr then
    w3 ++ ["More than 50% zero sales days. Consider product lifecycle stage."]
    else w3
  let s5 := s4 + analyze_trend_consistency q * (1/10)
  let s6 := s5 + analyze_seasonality_strength q.length autocorr7 * (1/10)
  let s7 := s6 - assess_outlier_impact q * (2/10)
  let s8 := if days_since_last ≤ 7 then s7 + 5/100
    else if 30 < days_since_last then s7 - 1/10 else s7
  let w8 := if ¬ (days_since_last ≤ 7) ∧ 30 < days_since_last then
    w4 ++ ["Data is " ++ toString days_since_last ++
      " days old. Recent data improves accuracy."]
    else w4
  (max 0 (min 1 s8), w8)

/-- One raw sales point as validated (`point.date`, `point.quantity_sold`);
`date = none` models a date `pd.to_datetime` fails to parse. -/
structure SalesPoint where
  date : Option ℤ
  quantity_sold : ℚ
  deriving Repr, DecidableEq

/-- `ValidationResult` NamedTuple (data_validator.py lines 12–17) with
its field defaults. -/
structure ValidationResult where
  is_valid : Bool
  insufficient_data : Bool
  error_message : Option String := none
  warnings : List String := []
  data_quality_score : ℚ := 0
  deriving Repr, DecidableEq

/-- Insert a row into a date-sorted row list. -/
def insertRow (x : ℤ × ℚ) : List (ℤ × ℚ) → List (ℤ × ℚ)
  | [] => [x]
  | y :: ys => if x.1 ≤ y.1 then x :: y :: ys else y :: insertRow x ys

/-- `df.sort_values('date')`. -/
def sortRows (rows : List (ℤ × ℚ)) : List (ℤ × ℚ) := rows.foldr insertRow []

/-- `max(date) − min(date)` in days, on the parsed rows. -/
def dateSpan (rows : List (ℤ × ℚ)) : ℤ :=
  let ds := rows.map Prod.fst
  ds.foldl max (ds.headD 0) - ds.foldl min (ds.headD 0)

/-- `DataValidator.validate_sales_data` (lines 28–103).  `autocorr7` and
`days_since_last` are the two environment inputs (Pearson statistic and
wall-clock age) threaded through to the quality score. -/
def validate_sales_data (sales_data : List SalesPoint)
    (autocorr7 : Option ℚ) (days_since_last : ℤ) : ValidationResult :=
  if sales_data.length = 0 then
    { is_valid := false, insufficient_data := true
      error_message := some "No sales data provided" }
  else if sales_data.length < 14 then
    { is_valid := false, insufficient_data := true
      error_message := some ("Insufficient data points. Need at least 14 data points, got "
        ++ toString sales_data.length) }
  else if sales_data.any (fun p => p.date.isNone) then
    { is_valid := false, insufficient_data := false
      error_message := some "Invalid date format in sales data" }
  else
    let rows := sortRows (sales_data.map
      (fun p => (p.date.getD 0, p.quantity_sold)))
    let span := dateSpan rows
    if span < 14 then
      { is_valid := false, insufficient_data := true
        error_message := some ("Data span too short. Need at least 14 days of data, got "
          ++ toString span ++ " days") }
    else
      let dates := rows.map Prod.fst
      let qs := rows.map Prod.snd
      let sw := calculate_data_quality_score dates qs autocorr7
        days_since_last
      let w1 := if 30 < days_since_last then
        sw.2 ++ ["Last sale was " ++ toString days_since_last ++
          " days ago. Forecast may be less accurate."]
        else sw.2
      let w2 := if ((qs.filter (fun x => decide (x = 0))).length : ℚ) >
          (qs.length : ℚ) * (1/2) then
        w1 ++ ["More than 50% of data points have zero sales. This may affect forecast accuracy."]
        else w1
      let w3 := if has_significant_outliers qs then
        w2 ++ ["Significant outliers detected in sales data. Consider reviewing for data entry errors."]
        else w2
      { is_valid := true, insufficient_data := false, warnings := w3
        data_quality_score := sw.1 }

end DataValidator

/-! ## `services/monitoring.py` — `PerformanceMonitor` -/

namespace Monitoring

/-- `ForecastMetrics` dataclass (monitoring.py lines 16–35). -/
structure ForecastMetrics where
  timestamp : ℤ
  sku : String
  user_id : String
  model_used : String
  processing_time_ms : ℚ
  data_points : ℕ
  forecast_days : ℕ
  confidence_score : ℚ
  data_quality_score : ℚ
  success : Bool
  error_message : Option String := none
  deriving Repr, DecidableEq

/-- One entry of the per-model performance list (lines 59–64). -/
structure PerfEntry where
  confidence : ℚ
  quality : ℚ
  processing_time : ℚ
  success : Bool
  deriving Repr, DecidableEq

/-- `collections.deque(maxlen = n).append`: append, then keep only the
most recent `n` elements (the oldest is evicted once the deque is full;
a `maxlen`-0 deque stays empty). -/
def dequeAppend (n : ℕ) (h : List α) (x : α) : List α :=
  (h ++ [x]).drop (h.length + 1 - n)

/-- The last `n` elements of a list, in order. -/
def lastN (n : ℕ) (l : List α) : List α := l.drop (l.length - n)

/-- `PerformanceMonitor.__init__` state (lines 42–48): the bounded
rolling history, the per-model performance lists (`defaultdict(list)`),
the failure-message tally (`defaultdict(int)`), and the bounded window
of the last 100 processing times. -/
structure PerformanceMonitor where
  max_history_size : ℕ
  metrics_history : List ForecastMetrics
  model_performance : String → List PerfEntry
  error_counts : String → ℕ
  processing_times : List ℚ

/-- `PerformanceMonitor(max_history_size=1000)`. -/
def PerformanceMonitor.init (max_history_size : ℕ := 1000) :
    PerformanceMonitor :=
  { max_history_size := max_history_size
    metrics_history := []
    model_performance := fun _ => []
    error_counts := fun _ => 0
    processing_times := [] }

/-- `metrics.error_message or 'unknown_error'` (line 68): `None` and the
empty string are both falsy. -/
def errorKey (m : ForecastMetrics) : String :=
  match m.error_message with
  | some s => if s = "" then "unknown_error" else s
  | none => "unknown_error"

/-- `PerformanceMonitor.record_forecast_metrics` (lines 55–78); the log
warnings it emits carry no state and are not modelled. -/
def record_forecast_metrics (s : PerformanceMonitor)
    (m : ForecastMetrics) : PerformanceMonitor :=
  { s with
    metrics_history := dequeAppend s.max_history_size s.metrics_history m
    model_performance := fun name =>
      if name = m.model_used then
        s.model_performance name ++
          [⟨m.confidence_score, m.data_quality_score,
            m.processing_time_ms, m.success⟩]
      else s.model_performance name
    error_counts := fun msg =>
      if ¬ m.success = true ∧ msg = errorKey m then s.error_counts msg + 1
      else s.error_counts msg
    processing_times :=
      dequeAppend 100 s.processing_times m.processing_time_ms }

/-- `PerformanceMonitor.clear_metrics` (lines 186–193). -/
def clear_metrics (s : PerformanceMonitor) : PerformanceMonitor :=
  { max_history_size := s.max_history_size
    metrics_history := []
    model_performance := fun _ => []
    error_counts := fun _ => 0
    processing_times := [] }

/-- A mutating operation on the shared monitor. -/
inductive MonitorOp where
  | record (m : ForecastMetrics)
  | clear

/-- One operation applied to the state. -/
def step (s : PerformanceMonitor) : MonitorOp → PerformanceMonitor
  | .record m => record_forecast_metrics s m
  | .clear => clear_metrics s

/-- A whole operation sequence applied to the state. -/
def run (s : PerformanceMonitor) (ops : List MonitorOp) :
    PerformanceMonitor :=
  ops.foldl step s

/-- The records that arrived since the last `clear`, in arrival order,
continuing from the records `a` already present. -/
def arrivalsFrom (a : List ForecastMetrics) (ops : List MonitorOp) :
    List ForecastMetrics :=
  ops.foldl (fun acc op =>
    match op with
    | .record m => acc ++ [m]
    | .clear => []) a

/-- The records that arrived since the last `clear`. -/
def arrivals (ops : List MonitorOp) : List ForecastMetrics :=
  arrivalsFrom [] ops

theorem dequeAppend_lastN (n : ℕ) (l : List α) (x : α) :
    dequeAppend n l x = lastN n (l ++ [x]) := by
  simp [dequeAppend, lastN]

theorem lastN_length_le (n : ℕ) (l : List α) : (lastN n l).length ≤ n := by
  simp only [lastN, List.length_drop]
  omega

theorem lastN_append_lastN (n : ℕ) (a : List α) (x : α) :
    lastN n (lastN n a ++ [x]) = lastN n (a ++ [x]) := by
  unfold lastN
  rw [← @List.drop_append_of_le_length _ a [x] (a.length - n)
    (by omega : a.length - n ≤ a.length)]
  rw [List.drop_drop]
  congr 1
  simp only [List.length_drop, List.length_append, List.length_cons,
    List.length_nil]
  omega

theorem run_history_aux (N : ℕ) (ops : List MonitorOp) :
    ∀ (a : List ForecastMetrics) (s : PerformanceMonitor),
      s.max_history_size = N →
      s.metrics_history = lastN N a →
      s.processing_times =
        lastN 100 (a.map (fun x => x.processing_time_ms)) →
      (run s ops).metrics_history = lastN N (arrivalsFrom a ops) ∧
        (run s ops).processing_times =
          lastN 100 ((arrivalsFrom a ops).map
            (fun x => x.processing_time_ms)) := by
  induction ops with
  | nil =>
    intro a s hN hh hp
    exact ⟨hh, hp⟩
  | cons op rest ih =>
    intro a s hN hh hp
    cases op with
    | record m =>
      refine ih (a ++ [m]) (record_forecast_metrics s m) hN ?_ ?_
      · show dequeAppend s.max_history_size s.metrics_history m = _
        rw [hN, hh, dequeAppend_lastN, lastN_append_lastN]
      · show dequeAppend 100 s.processing_times m.processing_time_ms = _
        rw [hp, dequeAppend_lastN, lastN_append_lastN, List.map_append]
        simp
    | clear =>
      refine ih [] (clear_metrics s) hN (by simp [lastN, clear_metrics])
        (by simp [lastN, clear_metrics])

end Monitoring

namespace Claims

open ForecastProcessor

/-- C3 counterexample: for `predictions = [3.9]`, `leadTimeDays = 2`,
`horizon = 1` the code extrapolates `int(3.9 × 2) = int(7.8) = 7`
(truncation), while the claim's `round(mean × leadTimeDays)` is `8`. -/
theorem lead_time_demand_round_counterexample :
    calculate_lead_time_demand [39/10] 2 1 = 7 ∧
      round ((meanQ [39/10]) * (2 : ℚ)) = 8 := by
  constructor
  · with_unfolding_all decide
  · have h : meanQ [39/10] = 39/10 := by with_unfolding_all decide
    rw [h, round_eq]
    norm_num

/-- C3 (amended): with a non-empty prediction list,
`calculate_lead_time_demand` returns 0 when `leadTimeDays ≤ 0` (in
particular at `leadTimeDays = 0`), the truncation `int(mean × leadTimeDays)`
when `leadTimeDays > horizon`, and the truncated sum of the first
`leadTimeDays` entries otherwise. -/
theorem lead_time_demand_cases (predictions : List ℚ)
    (lead_time_days forecast_days : ℤ) (_hne : 0 < predictions.length) :
    (lead_time_days ≤ 0 →
      calculate_lead_time_demand predictions lead_time_days forecast_days
        = 0) ∧
    calculate_lead_time_demand predictions 0 forecast_days = 0 ∧
    (0 < lead_time_days → forecast_days < lead_time_days →
      calculate_lead_time_demand predictions lead_time_days forecast_days
        = pyInt (predictions.sum / (predictions.length : ℚ)
            * (lead_time_days : ℚ))) ∧
    (0 < lead_time_days → lead_time_days ≤ forecast_days →
      calculate_lead_time_demand predictions lead_time_days forecast_days
        = pyInt ((predictions.take lead_time_days.toNat).sum)) := by
  refine ⟨fun hle => ?_, ?_, fun hpos hgt => ?_, fun hpos hle => ?_⟩
  · simp [calculate_lead_time_demand, hle]
  · simp [calculate_lead_time_demand]
  · have h1 : ¬ lead_time_days ≤ 0 := by omega
    simp [calculate_lead_time_demand, h1, hgt, meanQ]
  · have h1 : ¬ lead_time_days ≤ 0 := by omega
    have h2 : ¬ forecast_days < lead_time_days := by omega
    simp [calculate_lead_time_demand, h1, h2]

/-- C3 witness: the theorem applied at `predictions = [2]`,
`leadTimeDays = 0`, `horizon = 7`. -/
theorem lead_time_demand_cases_witness :
    calculate_lead_time_demand [(2 : ℚ)] 0 7 = 0 :=
  (lead_time_demand_cases [(2 : ℚ)] 0 7 (by decide)).2.1

/-- C4 counterexample: at `currentStock = 9`, `forecastDemand = 8`,
`leadTimeDemand = 0` the code truncates the safety stock
(`int(8 × 0.2) = 1`, total demand 9) and returns 0, while the claim's
rounded safety stock (`round(1.6) = 2`, total demand 10) would force a
reorder of 1. -/
theorem reorder_quantity_round_counterexample :
    calculate_reorder_quantity 9 8 0 = 0 ∧
      reorder_quantity_spec_round 9 8 0 = 1 := by
  constructor
  · with_unfolding_all decide
  · have h1 : round (((8 : ℤ) : ℚ) * (2/10)) = 2 := by
      rw [round_eq]; norm_num
    have h2 : round (((8 : ℤ) : ℚ) * (1/10)) = 1 := by
      rw [round_eq]; norm_num
    rw [reorder_quantity_spec_round, h1, h2]
    norm_num

/-- C4 (amended): for non-negative inputs `calculate_reorder_quantity` is
always ≥ 0; it returns 0 exactly when
`currentStock ≥ forecastDemand + leadTimeDemand + int(0.2·forecastDemand)`
(truncated safety stock), and otherwise returns
`max(totalDemand − currentStock, max(1, int(0.1·forecastDemand)))`; in
Scenario D (`currentStock=200, forecastDemand=70, leadTimeDemand=20`) the
safety stock is 14, the total demand 104, and the result 0. -/
theorem reorder_quantity_cases (current_stock forecast_demand
    lead_time_demand : ℕ) :
    0 ≤ calculate_reorder_quantity current_stock forecast_demand
        lead_time_demand ∧
    ((current_stock : ℤ) ≥ (forecast_demand : ℤ) + lead_time_demand +
        pyInt (((forecast_demand : ℤ) : ℚ) * (2/10)) →
      calculate_reorder_quantity current_stock forecast_demand
        lead_time_demand = 0) ∧
    ((current_stock : ℤ) < (forecast_demand : ℤ) + lead_time_demand +
        pyInt (((forecast_demand : ℤ) : ℚ) * (2/10)) →
      calculate_reorder_quantity current_stock forecast_demand
          lead_time_demand =
        max ((forecast_demand : ℤ) + lead_time_demand +
            pyInt (((forecast_demand : ℤ) : ℚ) * (2/10)) - current_stock)
          (max 1 (pyInt (((forecast_demand : ℤ) : ℚ) * (1/10))))) ∧
    pyInt (((70 : ℤ) : ℚ) * (2/10)) = 14 ∧
    (70 : ℤ) + 20 + pyInt (((70 : ℤ) : ℚ) * (2/10)) = 104 ∧
    calculate_reorder_quantity 200 70 20 = 0 := by
  refine ⟨?_, fun hge => ?_, fun hlt => ?_,
    by with_unfolding_all decide, by with_unfolding_all decide,
    by with_unfolding_all decide⟩
  · unfold calculate_reorder_quantity
    dsimp only
    split
    · exact le_refl 0
    · exact le_trans (le_trans zero_le_one (le_max_left 1 _))
        (le_max_right _ _)
  · unfold calculate_reorder_quantity
    dsimp only
    rw [if_pos hge]
  · have h : ¬ ((current_stock : ℤ) ≥ (forecast_demand : ℤ) +
        lead_time_demand + pyInt (((forecast_demand : ℤ) : ℚ) * (2/10))) := by
      omega
    unfold calculate_reorder_quantity
    dsimp only
    rw [if_neg h]

/-- C4 witness: the theorem applied at Scenario D's inputs, its
stocked-enough branch discharged there. -/
theorem reorder_quantity_cases_witness :
    calculate_reorder_quantity 200 70 20 = 0 :=
  (reorder_quantity_cases 200 70 20).2.1 (by with_unfolding_all decide)

/-- C2: `_select_best_forecast` follows the claimed selection order —
return the other candidate on a zero confidence score, the seasonal
candidate B when it dominates by the ×1.1 margin, candidate A when it
dominates by the ×1.1 margin, and otherwise the ensemble with
elementwise-averaged predictions, mean confidence, and trend/seasonality
copied from the candidate with the greater-or-equal confidence score
(ties to candidate B). -/
theorem select_best_forecast_spec (a b : ForecastResult)
    (_hlen : a.predictions.length = b.predictions.length) :
    (a.confidence_score = 0 → select_best_forecast a b = b) ∧
    (a.confidence_score ≠ 0 → b.confidence_score = 0 →
      select_best_forecast a b = a) ∧
    (a.confidence_score ≠ 0 → b.confidence_score ≠ 0 →
      b.confidence_score > a.confidence_score * (11/10) →
      b.seasonality_detected = true →
      select_best_forecast a b = b) ∧
    (a.confidence_score ≠ 0 → b.confidence_score ≠ 0 →
      ¬ (b.confidence_score > a.confidence_score * (11/10) ∧
          b.seasonality_detected = true) →
      a.confidence_score > b.confidence_score * (11/10) →
      select_best_forecast a b = a) ∧
    (a.confidence_score ≠ 0 → b.confidence_score ≠ 0 →
      ¬ (b.confidence_score > a.confidence_score * (11/10) ∧
          b.seasonality_detected = true) →
      ¬ (a.confidence_score > b.confidence_score * (11/10)) →
      (select_best_forecast a b).predictions =
          List.zipWith (fun x y => (x + y) / 2)
            a.predictions b.predictions ∧
        (select_best_forecast a b).confidence_score =
          (a.confidence_score + b.confidence_score) / 2 ∧
        (select_best_forecast a b).trend =
          (if b.confidence_score ≥ a.confidence_score then b.trend
            else a.trend) ∧
        (select_best_forecast a b).seasonality_detected =
          (if b.confidence_score ≥ a.confidence_score
            then b.seasonality_detected else a.seasonality_detected)) := by
  refine ⟨fun h0 => ?_, fun ha hb => ?_, fun ha hb hgt hs => ?_,
    fun ha hb hnb hgt => ?_, fun ha hb hnb hna => ?_⟩
  · simp [select_best_forecast, h0]
  · simp [select_best_forecast, ha, hb]
  · simp [select_best_forecast, ha, hb, hgt, hs]
  · rw [select_best_forecast, if_neg ha, if_neg hb, if_neg ?_, if_pos hgt]
    intro hc
    exact hnb ⟨hc.1, hc.2⟩
  · rw [select_best_forecast, if_neg ha, if_neg hb, if_neg ?_, if_neg hna]
    · refine ⟨rfl, rfl, rfl, rfl⟩
    · intro hc
      exact hnb ⟨hc.1, hc.2⟩

/-- C2 witness: the theorem applied to a failed candidate A
(confidence 0) and a healthy candidate B; the selector returns B. -/
theorem select_best_forecast_spec_witness :
    select_best_forecast
        { predictions := [2], confidence_score := 0 }
        { predictions := [4], confidence_score := 1/2 } =
      { predictions := [4], confidence_score := 1/2 } :=
  (select_best_forecast_spec
      { predictions := [2], confidence_score := 0 }
      { predictions := [4], confidence_score := 1/2 } rfl).1 rfl

open ForecastingModels in
/-- C1 (code bug): `ARIMAForecaster.fit_and_forecast` does not always
return a well-formed `ForecastResult`.  Whenever the prepared series has
fewer than 10 points (or statsmodels is unavailable, or the advanced fit
raises) it takes the `_fit_simple_arima` path, whose body is an empty
stub, and returns Python `None`; and the exception fallback that is
well-formed carries `confidenceScore = 0.3`, not the claimed `0`. -/
theorem arima_fit_and_forecast_code_bug (sm : Bool)
    (adv : AdvancedArimaOutcome) (df : List (ℤ × ℚ)) (d : ℕ)
    (h : (dailyReindex df).length < 10) :
    fit_and_forecast sm false adv df d = none ∧
      (fallback_forecast df d).confidence_score = 3/10 := by
  constructor
  · have h10 : ¬ (sm = true ∧ 10 ≤ (dailyReindex df).length) := by
      rintro ⟨-, hge⟩
      omega
    simp only [fit_and_forecast, Bool.false_eq_true, if_false]
    rw [if_neg h10]
    rfl
  · rfl

open ForecastingModels in
/-- C1 witness: a five-day series; `fit_and_forecast` returns `None`. -/
theorem arima_fit_and_forecast_code_bug_witness :
    fit_and_forecast true false .raised
        [(0, 1), (1, 2), (2, 3), (3, 4), (4, 5)] 7 = none :=
  (arima_fit_and_forecast_code_bug true .raised
      [(0, 1), (1, 2), (2, 3), (3, 4), (4, 5)] 7
      (by with_unfolding_all decide)).1

/-- C9: when both candidates carry `data_quality_score = 0` (as every
forecaster code path and the ensemble branch do — the field is never
set), the selected result's field is 0 and the built `ItemForecast` gets
the hardcoded fallback `0.8`, whatever the validator computed. -/
theorem item_forecast_data_quality_fallback (a b : ForecastResult)
    (sku : String) (current_stock lead_time_days forecast_days : ℤ) :
    ((select_best_forecast a b).data_quality_score = 0 →
        (generate_forecast a b sku current_stock lead_time_days
          forecast_days).data_quality_score = 8/10) ∧
    (a.data_quality_score = 0 → b.data_quality_score = 0 →
      (select_best_forecast a b).data_quality_score = 0) := by
  constructor
  · intro h0
    simp only [generate_forecast]
    rw [if_pos h0]
  · intro ha hb
    rw [select_best_forecast]
    split
    · exact hb
    · split
      · exact ha
      · split
        · exact hb
        · split
          · exact ha
          · rfl

/-- C9 witness: two comparable zero-`data_quality_score` candidates; the
ensemble is selected and the `ItemForecast` records quality `0.8`. -/
theorem item_forecast_data_quality_fallback_witness :
    (generate_forecast
        { predictions := [1], confidence_score := 1/2 }
        { predictions := [1], confidence_score := 1/2 }
        "SKU-1" 50 7 7).data_quality_score = 8/10 :=
  (item_forecast_data_quality_fallback
      { predictions := [1], confidence_score := 1/2 }
      { predictions := [1], confidence_score := 1/2 }
      "SKU-1" 50 7 7).1
    ((item_forecast_data_quality_fallback
        { predictions := [1], confidence_score := 1/2 }
        { predictions := [1], confidence_score := 1/2 }
        "SKU-1" 50 7 7).2 rfl rfl)

open DataValidator

/-- C5 (code bug): on Scenario E's 20-day series the spike rule of
`detect_data_anomalies` flags *no* point at all — in particular neither
the 25 (index 5) nor the 30 (index 15).  Each candidate's own trailing
7-day window contains the candidate itself, inflating `mean + 3·std`
above it (to ≈32.9 at the 25 and ≈38.6 at the 30), while the repository's
own test (test_service.py lines 162–168) asserts at least one spike for
exactly this series. -/
theorem scenarioE_no_sudden_spikes :
    sudden_spikes [5, 6, 4, 5, 7, 25, 6, 5, 4, 0, 0, 0, 6, 5, 4, 30, 5,
      6, 4, 5] = [] := by
  with_unfolding_all decide

/-- C6 counterexample: on 13 fives and one 100 the code's penalty base
`_assess_outlier_impact` (IQR + z-score + modified z-score, the MAD
method seeing a zero MAD) is `2/21`, while the claim's formula with the
density-based third method (which labels the 100 as noise) gives `1/7`. -/
theorem outlier_penalty_dbscan_counterexample :
    assess_outlier_impact
        [5, 5, 5, 5, 5, 5, 5, 5, 5, 5, 5, 5, 5, 100] = 2/21 ∧
      outlier_impact_claim
        [5, 5, 5, 5, 5, 5, 5, 5, 5, 5, 5, 5, 5, 100] = 1/7 := by
  constructor
  · with_unfolding_all decide
  · with_unfolding_all decide

/-- C6 (amended): for every admissible series (≥ 14 points) the quality
score's outlier-penalty base equals `min(1, 2·r)` where `r` averages the
IQR rule, the `|z| > 3` rule and the *modified z-score* rule
(`|0.6745·(x − median)/MAD| > 3.5`, contributing 0 when the MAD is 0);
the density-based labeling enters only the separate
`_has_significant_outliers` warning check, never the score. -/
theorem outlier_penalty_base_amended (q : List ℚ) (h : 14 ≤ q.length) :
    assess_outlier_impact q =
      min 1 ((iqr_outlier_ratio q + zscore_outlier_ratio q +
        modified_z_outlier_ratio q) / 3 * 2) := by
  have h4 : ¬ q.length < 4 := by omega
  rw [assess_outlier_impact, if_neg h4]

/-- C6 witness: the amended identity evaluated on the 14-point series of
the counterexample. -/
theorem outlier_penalty_base_amended_witness :
    assess_outlier_impact
        [5, 5, 5, 5, 5, 5, 5, 5, 5, 5, 5, 5, 5, 100] =
      min 1 ((iqr_outlier_ratio
          [5, 5, 5, 5, 5, 5, 5, 5, 5, 5, 5, 5, 5, 100] +
        zscore_outlier_ratio
          [5, 5, 5, 5, 5, 5, 5, 5, 5, 5, 5, 5, 5, 100] +
        modified_z_outlier_ratio
          [5, 5, 5, 5, 5, 5, 5, 5, 5, 5, 5, 5, 5, 100]) / 3 * 2) :=
  outlier_penalty_base_amended
    [5, 5, 5, 5, 5, 5, 5, 5, 5, 5, 5, 5, 5, 100] (by decide)

/-- The clamp `max(0.0, min(1.0, score))` on line 164 keeps the computed
quality score in the unit interval whatever the adjustments summed to. -/
theorem quality_score_clamped (dates : List ℤ) (q : List ℚ)
    (autocorr7 : Option ℚ) (days_since_last : ℤ) :
    0 ≤ (calculate_data_quality_score dates q autocorr7
        days_since_last).1 ∧
      (calculate_data_quality_score dates q autocorr7
        days_since_last).1 ≤ 1 := by
  unfold calculate_data_quality_score
  refine ⟨le_max_left 0 _, max_le (by norm_num) (min_le_left 1 _)⟩

/-- C7: for every series that parses, has at least 14 points and spans
at least 14 days, `validate_sales_data` succeeds (`isValid = true`) and
its quality score — all additive adjustments applied, then clamped —
lies in `[0, 1]`. -/
theorem validate_quality_in_unit_interval (s : List SalesPoint)
    (autocorr7 : Option ℚ) (days_since_last : ℤ)
    (hlen : 14 ≤ s.length)
    (hdates : ∀ p ∈ s, p.date.isSome)
    (hspan : 14 ≤ dateSpan (sortRows (s.map
      (fun p => (p.date.getD 0, p.quantity_sold))))) :
    (validate_sales_data s autocorr7 days_since_last).is_valid = true ∧
      0 ≤ (validate_sales_data s autocorr7
        days_since_last).data_quality_score ∧
      (validate_sales_data s autocorr7
        days_since_last).data_quality_score ≤ 1 := by
  have h1 : ¬ s.length = 0 := by omega
  have h2 : ¬ s.length < 14 := by omega
  have h3 : ¬ s.any (fun p => p.date.isNone) = true := by
    simp only [List.any_eq_true, not_exists]
    rintro p ⟨hp, hnone⟩
    have hs := hdates p hp
    rw [Option.isNone_iff_eq_none] at hnone
    rw [hnone] at hs
    exact (Bool.false_ne_true hs).elim
  have h4 : ¬ dateSpan (sortRows (s.map
      (fun p => (p.date.getD 0, p.quantity_sold)))) < 14 := by omega
  unfold validate_sales_data
  rw [if_neg h1, if_neg h2, if_neg h3]
  dsimp only
  rw [if_neg h4]
  exact ⟨rfl, (quality_score_clamped _ _ _ _).1,
    (quality_score_clamped _ _ _ _).2⟩

/-- C7 witness: fifteen consecutive daily points of quantity 5; the
validation succeeds and its quality score lies in `[0,1]`. -/
theorem validate_quality_in_unit_interval_witness :
    (validate_sales_data
        ((List.range 15).map (fun i => ⟨some (i : ℤ), 5⟩))
        none 0).is_valid = true ∧
      0 ≤ (validate_sales_data
        ((List.range 15).map (fun i => ⟨some (i : ℤ), 5⟩))
        none 0).data_quality_score ∧
      (validate_sales_data
        ((List.range 15).map (fun i => ⟨some (i : ℤ), 5⟩))
        none 0).data_quality_score ≤ 1 :=
  validate_quality_in_unit_interval
    ((List.range 15).map (fun i => ⟨some (i : ℤ), 5⟩)) none 0
    (by decide) (by decide) (by with_unfolding_all decide)

/-- C10: every failed validation (empty series, fewer than 14 points,
unparseable dates, short span) carries the `ValidationResult` defaults:
`data_quality_score = 0` and an empty warnings list. -/
theorem failed_validation_defaults (s : List SalesPoint)
    (autocorr7 : Option ℚ) (days_since_last : ℤ) :
    (validate_sales_data s autocorr7 days_since_last).is_valid = false →
      (validate_sales_data s autocorr7
          days_since_last).data_quality_score = 0 ∧
        (validate_sales_data s autocorr7
          days_since_last).warnings = [] := by
  by_cases h1 : s.length = 0
  · intro
    simp [validate_sales_data, h1]
  by_cases h2 : s.length < 14
  · intro
    simp [validate_sales_data, h1, h2]
  by_cases h3 : s.any (fun p => p.date.isNone) = true
  · intro
    simp [validate_sales_data, h1, h2, h3]
  by_cases h4 : dateSpan (sortRows (s.map
      (fun p => (p.date.getD 0, p.quantity_sold)))) < 14
  · intro
    simp [validate_sales_data, h1, h2, h3, h4]
  · intro hvalid
    exfalso
    simp [validate_sales_data, h1, h2, h3, h4] at hvalid

/-- C10 witness: the empty series fails validation with score 0 and no
warnings. -/
theorem failed_validation_defaults_witness :
    (validate_sales_data [] none 0).data_quality_score = 0 ∧
      (validate_sales_data [] none 0).warnings = [] :=
  failed_validation_defaults [] none 0 (by with_unfolding_all decide)

open Monitoring

/-- C8: over every operation sequence from a fresh monitor of capacity
`N`, the rolling history is exactly the last `N` records that arrived
since the most recent clear (most recent records, arrival order, hence
length ≤ `N`), the processing-time window is the last 100 of their
processing times; a `record` against a full history evicts exactly the
oldest entry; and the default capacity is 1000. -/
theorem monitor_rolling_history (N : ℕ) (ops : List MonitorOp)
    (s : PerformanceMonitor) (m : ForecastMetrics) :
    (run (.init N) ops).metrics_history = lastN N (arrivals ops) ∧
      (run (.init N) ops).processing_times =
        lastN 100 ((arrivals ops).map (fun x => x.processing_time_ms)) ∧
      (run (.init N) ops).metrics_history.length ≤ N ∧
      (run (.init N) ops).processing_times.length ≤ 100 ∧
      (0 < s.max_history_size →
        s.metrics_history.length = s.max_history_size →
        (record_forecast_metrics s m).metrics_history =
          s.metrics_history.tail ++ [m]) ∧
      (PerformanceMonitor.init).max_history_size = 1000 := by
  have key := run_history_aux N ops [] (.init N) rfl
    (by simp [lastN, PerformanceMonitor.init])
    (by simp [lastN, PerformanceMonitor.init])
  refine ⟨key.1, key.2, ?_, ?_, ?_, rfl⟩
  · rw [key.1]
    exact lastN_length_le N _
  · rw [key.2]
    exact lastN_length_le 100 _
  · intro hpos hfull
    show dequeAppend s.max_history_size s.metrics_history m = _
    unfold dequeAppend
    rw [hfull, Nat.add_sub_cancel_left,
      List.drop_append_of_le_length (by omega), List.drop_one]

/-- C8 witness: capacity 2, three records; the history holds the last
two in order, and recording against the full two-element history evicts
the oldest. -/
theorem monitor_rolling_history_witness :
    (run (.init 2) [.record ⟨0, "a", "u", "m", 10, 5, 7, 1/2, 1/2, true,
        none⟩,
      .record ⟨1, "b", "u", "m", 11, 5, 7, 1/2, 1/2, true, none⟩,
      .record ⟨2, "c", "u", "m", 12, 5, 7, 1/2, 1/2, true,
        none⟩]).metrics_history =
      lastN 2 (arrivals [.record ⟨0, "a", "u", "m", 10, 5, 7, 1/2, 1/2,
        true, none⟩,
        .record ⟨1, "b", "u", "m", 11, 5, 7, 1/2, 1/2, true, none⟩,
        .record ⟨2, "c", "u", "m", 12, 5, 7, 1/2, 1/2, true, none⟩]) ∧
      (record_forecast_metrics
          { max_history_size := 2
            metrics_history := [⟨0, "a", "u", "m", 10, 5, 7, 1/2, 1/2,
              true, none⟩,
              ⟨1, "b", "u", "m", 11, 5, 7, 1/2, 1/2, true, none⟩]
            model_performance := fun _ => []
            error_counts := fun _ => 0
            processing_times := [] }
          ⟨2, "c", "u", "m", 12, 5, 7, 1/2, 1/2, true,
            none⟩).metrics_history =
        [⟨0, "a", "u", "m", 10, 5, 7, 1/2, 1/2, true, none⟩,
          ⟨1, "b", "u", "m", 11, 5, 7, 1/2, 1/2, true,
            none⟩].tail ++
          [⟨2, "c", "u", "m", 12, 5, 7, 1/2, 1/2, true, none⟩] :=
  ⟨(monitor_rolling_history 2 [.record ⟨0, "a", "u", "m", 10, 5, 7, 1/2,
      1/2, true, none⟩,
      .record ⟨1, "b", "u", "m", 11, 5, 7, 1/2, 1/2, true, none⟩,
      .record ⟨2, "c", "u", "m", 12, 5, 7, 1/2, 1/2, true, none⟩]
      (.init 2) ⟨2, "c", "u", "m", 12, 5, 7, 1/2, 1/2, true, none⟩).1,
    (monitor_rolling_history 2 []
        { max_history_size := 2
          metrics_history := [⟨0, "a", "u", "m", 10, 5, 7, 1/2, 1/2,
            true, none⟩,
            ⟨1, "b", "u", "m", 11, 5, 7, 1/2, 1/2, true, none⟩]
          model_performance := fun _ => []
          error_counts := fun _ => 0
          processing_times := [] }
        ⟨2, "c", "u", "m", 12, 5, 7, 1/2, 1/2, true,
          none⟩).2.2.2.2.1 (by decide) (by decide)⟩

end Claims

end Relinq
